import Mathlib

/-!
Shallow embedding of the dependabot-tracker interactive session core
(src/dependabot.rs, src/repository.rs, src/repository_list.rs, src/app.rs,
src/current_screen.rs, src/main.rs), together with theorems settling the
specification claims about it.

Modelling conventions:
- Rust `usize`/`u32` become `Nat`; saturating/truncated `Nat` subtraction is
  used where the source subtracts (the source would panic on underflow in the
  corresponding corner states; every theorem below stays inside states where
  the two agree, or says so explicitly).
- ratatui presentation values (styles, spans, widgets) are dropped; a rendered
  `Line` is modelled by its text `String`.
- The mpsc channel between the UI thread and the refresh worker is modelled by
  an explicit sequence of observations consumed by the polling loop.
- File and network I/O are modelled by oracle parameters giving the response
  of each external call.
-/

set_option maxRecDepth 10000

namespace DependabotTracker

/-- `DependabotState` from src/dependabot.rs (serde snake_case). -/
inductive DependabotState
  | AutoDismissed
  | Dismissed
  | Fixed
  | Open
deriving Repr, DecidableEq

/-- The `Display` impl for `DependabotState` writes the Debug name. -/
def DependabotState.display : DependabotState → String
  | .AutoDismissed => "AutoDismissed"
  | .Dismissed => "Dismissed"
  | .Fixed => "Fixed"
  | .Open => "Open"

/-- `DependabotSeverity` from src/dependabot.rs. -/
inductive DependabotSeverity
  | Low
  | Medium
  | High
  | Critical
deriving Repr, DecidableEq

/-- The `Display` impl for `DependabotSeverity` writes the Debug name. -/
def DependabotSeverity.display : DependabotSeverity → String
  | .Low => "Low"
  | .Medium => "Medium"
  | .High => "High"
  | .Critical => "Critical"

/-- `Package` from src/dependabot.rs. -/
structure Package where
  ecosystem : String
  name : String
deriving Repr, DecidableEq

/-- `SecurityVulnerability` from src/dependabot.rs. -/
structure SecurityVulnerability where
  severity : DependabotSeverity
  package : Package
deriving Repr, DecidableEq

/-- `GithubDependabot` from src/dependabot.rs (the wire format of one alert). -/
structure GithubDependabot where
  number : Nat
  state : DependabotState
  security_vulnerability : SecurityVulnerability
  html_url : String
  created_at : String
  updated_at : String
  dismissed_at : Option String
deriving Repr, DecidableEq

/-- `Dependabot` from src/dependabot.rs (the stored form of one alert). -/
structure Dependabot where
  number : Nat
  state : DependabotState
  severity : DependabotSeverity
  html_url : String
  created_at : String
  updated_at : String
  dismissed_at : Option String
  dependency_ecosystem : String
  dependency_name : String
deriving Repr, DecidableEq

/-- `Dependabot::to_text` from src/dependabot.rs; each ratatui `Line` is
modelled by its text content.  The source pushes exactly these ten lines
unconditionally. -/
def Dependabot.to_text (d : Dependabot) : List String :=
  [ String.join (List.replicate 20 "-"),
    "Number: " ++ toString d.number,
    "State: " ++ d.state.display,
    "Severity: " ++ d.severity.display,
    "URL: " ++ d.html_url,
    "Created At: " ++ d.created_at,
    "Updated At: " ++ d.updated_at,
    "Dismissed At: " ++ d.dismissed_at.getD "N/A",
    "Dependency Ecosystem: " ++ d.dependency_ecosystem,
    "Dependency Name: " ++ d.dependency_name ]

/-- `GitHubRepository` from src/repository.rs (the wire format of one
repository; the `private` field is renamed `is_private`, `private` being a
Lean keyword). -/
structure GitHubRepository where
  id : Nat
  name : String
  full_name : String
  is_private : Bool
  html_url : String
  archived : Bool
deriving Repr, DecidableEq

/-- `Repository` from src/repository.rs (the `private` field is renamed
`is_private`, `private` being a Lean keyword). -/
structure Repository where
  id : Nat
  name : String
  full_name : String
  is_private : Bool
  url : String
  archived : Bool
  dependabots : List Dependabot
  low_alerts : Nat
  medium_alerts : Nat
  high_alerts : Nat
  critical_alerts : Nat
  total_active_alerts : Nat
deriving Repr, DecidableEq

/-- ratatui `ListState`, reduced to the one field the source reads and
writes (`selected`); the scroll `offset` is presentation only. -/
structure ListState where
  selected : Option Nat := none
deriving Repr, DecidableEq

/-- `ListState::select`. -/
def ListState.select (s : ListState) (index : Option Nat) : ListState :=
  { s with selected := index }

/-- `RepositoryList` from src/repository_list.rs. -/
structure RepositoryList where
  state : ListState
  repos : List Repository
  selected : Option Nat
deriving Repr, DecidableEq

/-- `RepositoryList::with_respositories` (source spelling kept). -/
def RepositoryList.with_respositories (repos : List Repository) : RepositoryList :=
  let state :=
    if repos.isEmpty then ListState.select {} none
    else ListState.select {} (some 0)
  { state := state, repos := repos, selected := none }

/-- `RepositoryList::next`.  `self.repos.len() - 1` is `Nat` subtraction here;
the source would panic on an empty list with a `Some` cursor (a state no
theorem below enters). -/
def RepositoryList.next (l : RepositoryList) : RepositoryList :=
  let index :=
    match l.state.selected with
    | some index => if index ≥ l.repos.length - 1 then 0 else index + 1
    | none => l.selected.getD 0
  { l with state := l.state.select (some index) }

/-- `RepositoryList::previous` (same subtraction caveat as `next`). -/
def RepositoryList.previous (l : RepositoryList) : RepositoryList :=
  let index :=
    match l.state.selected with
    | some index => if index = 0 then l.repos.length - 1 else index - 1
    | none => l.selected.getD 0
  { l with state := l.state.select (some index) }

/-- `RepositoryList::get_selected_repository`; the source indexes
`self.repos[index]` (panicking out of range), modelled by `List.get?`. -/
def RepositoryList.get_selected_repository (l : RepositoryList) : Option Repository :=
  l.state.selected.bind fun index => l.repos.get? index

/-- The Selection List invariant stated by the specification: the cursor is
`none` iff the sequence is empty, and otherwise in bounds. -/
def RepositoryList.cursorInv (l : RepositoryList) : Prop :=
  (l.state.selected = none ↔ l.repos = []) ∧
  ∀ i, l.state.selected = some i → i < l.repos.length

/-- ratatui `ScrollbarState` (plain data; it only feeds the scrollbar
widget's rendering). -/
structure ScrollbarState where
  content_length : Nat := 0
  position : Nat := 0
  viewport_content_length : Nat := 0
deriving Repr, DecidableEq

/-- `ScrollbarState::default`. -/
def ScrollbarState.default : ScrollbarState := {}

/-- ratatui builder `ScrollbarState::content_length` (renamed to avoid the
field-projection name). -/
def ScrollbarState.withContentLength (s : ScrollbarState) (n : Nat) : ScrollbarState :=
  { s with content_length := n }

/-- ratatui builder `ScrollbarState::position`. -/
def ScrollbarState.withPosition (s : ScrollbarState) (n : Nat) : ScrollbarState :=
  { s with position := n }

/-- ratatui builder `ScrollbarState::viewport_content_length`. -/
def ScrollbarState.withViewportContentLength (s : ScrollbarState) (n : Nat) : ScrollbarState :=
  { s with viewport_content_length := n }

/-- `DependabotScrollbar` from src/app.rs. -/
structure DependabotScrollbar where
  state : ScrollbarState
  length : Nat
  position : Nat
deriving Repr, DecidableEq

/-- `DependabotScrollbar::default`. -/
def DependabotScrollbar.default : DependabotScrollbar :=
  { state := ScrollbarState.default, length := 0, position := 0 }

/-- `DependabotScrollbar::new`. -/
def DependabotScrollbar.new (length : Nat) : DependabotScrollbar :=
  { state :=
      ((ScrollbarState.default.withContentLength length).withViewportContentLength 1).withPosition 0,
    length := length,
    position := 0 }

/-- `DependabotScrollbar::scroll_down`. -/
def DependabotScrollbar.scroll_down (s : DependabotScrollbar) : DependabotScrollbar :=
  let position := if s.position < s.length then s.position + 1 else 0
  { s with position := position, state := s.state.withPosition position }

/-- `DependabotScrollbar::scroll_up`. -/
def DependabotScrollbar.scroll_up (s : DependabotScrollbar) : DependabotScrollbar :=
  let position := if s.position > 0 then s.position - 1 else s.length
  { s with position := position, state := s.state.withPosition position }

/-- `DependabotScrollbar::top`. -/
def DependabotScrollbar.top (s : DependabotScrollbar) : DependabotScrollbar :=
  { s with position := 0, state := s.state.withPosition 0 }

/-- `DependabotScrollbar::resize`. -/
def DependabotScrollbar.resize (s : DependabotScrollbar) (length : Nat) : DependabotScrollbar :=
  { s with length := length, position := 0,
           state := (s.state.withContentLength length).withPosition 0 }

/-- `DependabotScrollbar::get_length`. -/
def DependabotScrollbar.get_length (s : DependabotScrollbar) : Nat :=
  s.length

/-- One user-driven scrollbar operation (the three mutators reachable from
the DependabotDetails key handler in src/main.rs). -/
inductive ScrollOp
  | down
  | up
  | top
deriving Repr, DecidableEq

/-- Apply one scrollbar operation. -/
def DependabotScrollbar.applyOp (s : DependabotScrollbar) : ScrollOp → DependabotScrollbar
  | .down => s.scroll_down
  | .up => s.scroll_up
  | .top => s.top

/-- Apply a sequence of scrollbar operations, left to right. -/
def DependabotScrollbar.applyOps (s : DependabotScrollbar) (ops : List ScrollOp) :
    DependabotScrollbar :=
  ops.foldl DependabotScrollbar.applyOp s

/-- `CurrentScreen` from src/current_screen.rs. -/
inductive CurrentScreen
  | Overview
  | ProjectList
  | Project
  | DependabotDetails
  | Update
  | Updating
deriving Repr, DecidableEq

/-- `App` from src/app.rs.  The `fetching : Option<Receiver<..>>` handle is
modelled by a `Bool` (whether a handle is held); the channel contents are
the observation sequence consumed by `drainLoop`.  `ThrobberState` is
modelled by its animation phase, which `on_tick` advances by one. -/
structure App where
  current_repository : Option Repository
  last_updated : String
  repositories : RepositoryList
  current_screen : CurrentScreen
  token : String
  username : String
  spinner_state : Nat
  fetching : Bool
  scrollbar : DependabotScrollbar
  chunk_height : Nat
  error : Option String
deriving Repr, DecidableEq

/-- `App::on_tick` (`ThrobberState::calc_next` advances the phase). -/
def App.on_tick (a : App) : App :=
  { a with spinner_state := a.spinner_state + 1 }

/-- The crossterm key codes the source matches on in `run_app`. -/
inductive KeyCode
  | char (c : Char)
  | enter
  | up
  | down
  | tab
deriving Repr, DecidableEq

/-- Outcome of handling one key press: either `run_app` returns `Ok(())`
(the session quits) or the loop continues with the updated state. -/
inductive StepResult
  | quit
  | cont (a : App)
deriving Repr, DecidableEq

/-- The per-key input dispatch of `run_app` (src/main.rs lines 78-176),
with the matched screen taken as an argument (`handleKey` below passes
`app.current_screen`).  The source matches on `KeyCode::Char(c)` literals;
here the character is compared with an equality chain, which is the same
function.  The `'y'` branch of the Update screen spawns the refresh worker
and stores the channel receiver, modelled by setting `fetching := true`. -/
def dispatchKey (screen : CurrentScreen) (app : App) (key : KeyCode) : StepResult :=
  match screen with
  | .Overview =>
    match key with
    | .char c =>
      if c = 'r' then .cont { app with current_screen := .ProjectList }
      else if c = 'q' then .quit
      else if c = 'u' then .cont { app with current_screen := .Update }
      else .cont app
    | _ => .cont app
  | .Update =>
    match key with
    | .char c =>
      if c = 'y' then .cont { app with current_screen := .Updating, fetching := true }
      else if c = 'n' then .cont { app with current_screen := .ProjectList }
      else if c = 'q' then .quit
      else .cont app
    | _ => .cont app
  | .ProjectList =>
    match key with
    | .enter =>
      match app.repositories.get_selected_repository with
      | some repo =>
        .cont { app with
                current_repository := some repo,
                current_screen := .Project,
                scrollbar := DependabotScrollbar.new (repo.total_active_alerts * 10) }
      | none => .cont app
    | .up => .cont { app with repositories := app.repositories.previous }
    | .down => .cont { app with repositories := app.repositories.next }
    | .char c =>
      if c = 'o' then .cont { app with current_screen := .Overview }
      else if c = 'u' then .cont { app with current_screen := .Update }
      else if c = 'q' then .quit
      else .cont app
    | _ => .cont app
  | .Project =>
    match key with
    | .tab => .cont { app with current_screen := .DependabotDetails }
    | .char c =>
      if c = 'r' then .cont { app with current_screen := .ProjectList }
      else if c = 'q' then .quit
      else .cont app
    | _ => .cont app
  | .DependabotDetails =>
    match key with
    | .up => .cont { app with scrollbar := app.scrollbar.scroll_up }
    | .down => .cont { app with scrollbar := app.scrollbar.scroll_down }
    | .tab => .cont { app with current_screen := .Project }
    | .char c =>
      if c = 'o' then .cont { app with current_screen := .Overview }
      else if c = 't' then .cont { app with scrollbar := app.scrollbar.top }
      else if c = 'q' then .quit
      else .cont app
    | _ => .cont app
  | .Updating => .cont app

/-- One key press handled against the current screen, as in `run_app`. -/
def handleKey (app : App) (key : KeyCode) : StepResult :=
  dispatchKey app.current_screen app key

/-- The rendered line count of a repository's alert list in
`render_dependabot_details`: `flat_map(to_text)` over all its alerts. -/
def dependabot_line_count (repo : Repository) : Nat :=
  (repo.dependabots.map Dependabot.to_text).flatten.length

/-- The state effect of `render_dependabot_details`
(src/current_screen.rs lines 222-278): the scrollbar resize driven by an
observed viewport-height change, and the `chunk_height` update.
`viewport_height` is `tab_chunks[1].height`.  The source unwraps
`current_repository` (panicking when absent); every theorem below supplies a
repository.  `dependabot_line_count - viewport_height` is `Nat` subtraction;
in the `Ordering::Greater` branch the source would panic were the line count
below the viewport height, a state the theorems below exclude. -/
def render_dependabot_details (app : App) (viewport_height : Nat) : App :=
  match app.current_repository with
  | none => app
  | some current_repo =>
    let line_count := dependabot_line_count current_repo
    let resized_window := app.chunk_height ≠ viewport_height
    let app :=
      if resized_window then
        match compare app.scrollbar.get_length viewport_height with
        | .gt =>
          { app with scrollbar := app.scrollbar.resize (line_count - viewport_height) }
        | .lt =>
          if line_count < viewport_height then
            { app with scrollbar := app.scrollbar.resize 0 }
          else
            { app with scrollbar := app.scrollbar.resize (line_count - viewport_height) }
        | .eq => { app with scrollbar := app.scrollbar.resize 0 }
      else app
    { app with chunk_height := viewport_height }

/-- Oracle for one per-repository `GET .../dependabot/alerts` call in
`fetch_repo_depenabot_alerts`: the transport may fail, the status may be a
4xx client error, the body may fail to parse, or a list of alerts comes
back. -/
inductive AlertsResponse
  | transportError (e : String)
  | clientError
  | parseError (e : String)
  | success (alerts : List GithubDependabot)

/-- `fetch_repo_depenabot_alerts` from src/repository.rs (source spelling
kept), with the network call abstracted by its `AlertsResponse`. -/
def fetch_repo_depenabot_alerts (repository : GitHubRepository)
    (response : AlertsResponse) : Except String Repository :=
  match response with
  | .transportError e => .error e
  | .parseError e => .error e
  | .clientError =>
    .ok { id := repository.id,
          name := repository.name,
          full_name := repository.full_name,
          is_private := repository.is_private,
          url := repository.html_url,
          archived := repository.archived,
          dependabots := [],
          low_alerts := 0,
          medium_alerts := 0,
          high_alerts := 0,
          critical_alerts := 0,
          total_active_alerts := 0 }
  | .success github_dependabots =>
    let dependabots : List Dependabot :=
      github_dependabots.map fun github_dependabot =>
        { number := github_dependabot.number,
          state := github_dependabot.state,
          severity := github_dependabot.security_vulnerability.severity,
          html_url := github_dependabot.html_url,
          created_at := github_dependabot.created_at,
          updated_at := github_dependabot.updated_at,
          dismissed_at := github_dependabot.dismissed_at,
          dependency_ecosystem := github_dependabot.security_vulnerability.package.ecosystem,
          dependency_name := github_dependabot.security_vulnerability.package.name }
    let low_alerts :=
      (dependabots.filter fun dependabot =>
        dependabot.state == DependabotState.Open
          && dependabot.severity == DependabotSeverity.Low).length
    let medium_alerts :=
      (dependabots.filter fun dependabot =>
        dependabot.state == DependabotState.Open
          && dependabot.severity == DependabotSeverity.Medium).length
    let high_alerts :=
      (dependabots.filter fun dependabot =>
        dependabot.state == DependabotState.Open
          && dependabot.severity == DependabotSeverity.High).length
    let critical_alerts :=
      (dependabots.filter fun dependabot =>
        dependabot.state == DependabotState.Open
          && dependabot.severity == DependabotSeverity.Critical).length
    let total_active_alerts := low_alerts + medium_alerts + high_alerts + critical_alerts
    .ok { id := repository.id,
          name := repository.name,
          full_name := repository.full_name,
          is_private := repository.is_private,
          url := repository.html_url,
          archived := repository.archived,
          dependabots := dependabots,
          low_alerts := low_alerts,
          medium_alerts := medium_alerts,
          high_alerts := high_alerts,
          critical_alerts := critical_alerts,
          total_active_alerts := total_active_alerts }

/-- `fetch_dependabot_alerts` from src/repository.rs, with each
per-repository network call abstracted by an oracle: its `filter_map(ok)`
drops failed per-repository fetches and the overall result is always `Ok`. -/
def fetch_dependabot_alerts (repositories : List GitHubRepository)
    (responses : GitHubRepository → AlertsResponse) : Except String (List Repository) :=
  .ok ((repositories.map fun repo =>
          fetch_repo_depenabot_alerts repo (responses repo)).filterMap Except.toOption)

/-- Oracle for the `GET /user/repos` call in `fetch_github_repos`. -/
inductive RepoListResponse
  | transportError (e : String)
  | parseError (e : String)
  | success (repos : List GitHubRepository)

/-- `fetch_github_repos` from src/repository.rs, with both network calls
abstracted by oracles.  The snapshot write (`serde_json::to_writer`, file
I/O) has no effect on the returned value and is dropped. -/
def fetch_github_repos (repoListResponse : RepoListResponse)
    (alertResponses : GitHubRepository → AlertsResponse) :
    Except String RepositoryList :=
  match repoListResponse with
  | .transportError e => .error e
  | .parseError e => .error e
  | .success repos =>
    match fetch_dependabot_alerts repos alertResponses with
    | .error e => .error e
    | .ok updated_repos => .ok (RepositoryList.with_respositories updated_repos)

/-- One observation of the refresh channel by `try_recv` in `run_app`
(src/main.rs lines 179-198): a result arrived, the channel was empty, or
the channel is disconnected. -/
inductive ChannelObs
  | ready (result : Except String RepositoryList)
  | empty
  | disconnected

/-- Outcome of the `while let Some(rx) = &app.fetching` polling loop:
`finished a` — the loop exited normally with state `a`; `fatal e` —
`run_app` returned `Err(e)`, ending the session; `pending a` — the supplied
observation sequence ran out while the refresh was still in flight (the
real loop would keep polling). -/
inductive DrainOutcome
  | finished (a : App)
  | fatal (e : String)
  | pending (a : App)
deriving Repr, DecidableEq

/-- Whether the outcome ends the session with an error. -/
def DrainOutcome.isFatal : DrainOutcome → Bool
  | .fatal _ => true
  | _ => false

/-- The polling loop of `run_app` (src/main.rs lines 179-198), consuming one
channel observation per pass, paired with the number of `try_recv` checks
performed.  On `Ok(result)` the source runs `app.repositories = result?`:
a success replaces the list, clears the handle and moves to Overview (the
loop then exits); a failure propagates out of `run_app` (`fatal`).  On
`Empty` it ticks the spinner, redraws and sleeps 200ms before the next
pass.  On `Disconnected` it returns an error. -/
def drainLoop : App → List ChannelObs → DrainOutcome × Nat
  | a, [] => if a.fetching then (.pending a, 0) else (.finished a, 0)
  | a, o :: rest =>
    if a.fetching then
      match o with
      | .ready (Except.ok result) =>
        (.finished { a with repositories := result, fetching := false,
                            current_screen := .Overview }, 1)
      | .ready (Except.error e) => (.fatal e, 1)
      | .disconnected => (.fatal "Fetch thread terminated unexpectedly", 1)
      | .empty =>
        let r := drainLoop a.on_tick rest
        (r.1, r.2 + 1)
    else (.finished a, 0)

/-! ### Concrete sample values used by witnesses and counterexamples -/

/-- A sample alert with the given number, state and severity. -/
def mkAlert (n : Nat) (st : DependabotState) (sev : DependabotSeverity) : Dependabot :=
  { number := n, state := st, severity := sev,
    html_url := "https://example.test/alert",
    created_at := "2024-01-01T00:00:00Z",
    updated_at := "2024-01-02T00:00:00Z",
    dismissed_at := none,
    dependency_ecosystem := "cargo",
    dependency_name := "dep" }

/-- A sample repository with the given alerts and derived counts. -/
def mkRepo (id : Nat) (name : String) (alerts : List Dependabot)
    (low med high crit : Nat) : Repository :=
  { id := id, name := name, full_name := "user/" ++ name, is_private := false,
    url := "https://example.test/" ++ name, archived := false,
    dependabots := alerts,
    low_alerts := low, medium_alerts := med, high_alerts := high,
    critical_alerts := crit,
    total_active_alerts := low + med + high + crit }

/-- A repository with 40 open low-severity alerts and no dismissed ones. -/
def repo40 : Repository :=
  mkRepo 1 "alpha" (List.replicate 40 (mkAlert 7 .Open .Low)) 40 0 0 0

/-- A session state over the given repositories, as after `App::new` with an
empty environment (fields the claims never read get placeholder values). -/
def baseApp (repos : List Repository) : App :=
  { current_repository := none,
    last_updated := "",
    repositories := RepositoryList.with_respositories repos,
    current_screen := .Overview,
    token := "token",
    username := "user",
    spinner_state := 0,
    fetching := false,
    scrollbar := DependabotScrollbar.default,
    chunk_height := 0,
    error := none }

/-! ### Helper lemmas -/

/-- Every alert renders to exactly ten lines. -/
theorem to_text_length (d : Dependabot) : d.to_text.length = 10 := rfl

/-- The detail view's rendered line count is ten per alert. -/
theorem dependabot_line_count_eq (repo : Repository) :
    dependabot_line_count repo = 10 * repo.dependabots.length := by
  unfold dependabot_line_count
  generalize repo.dependabots = l
  induction l with
  | nil => rfl
  | cons d t ih =>
    simp only [List.map_cons, List.flatten_cons, List.length_append, ih,
      to_text_length, List.length_cons]
    ring

/-- Cursor value after `next` from a `some` cursor. -/
theorem next_state_selected (l : RepositoryList) (i : Nat)
    (h : l.state.selected = some i) :
    l.next.state.selected = some (if i ≥ l.repos.length - 1 then 0 else i + 1) ∧
    l.next.repos = l.repos ∧ l.next.selected = l.selected := by
  simp [RepositoryList.next, h, ListState.select]

/-- Cursor value after `previous` from a `some` cursor. -/
theorem previous_state_selected (l : RepositoryList) (i : Nat)
    (h : l.state.selected = some i) :
    l.previous.state.selected = some (if i = 0 then l.repos.length - 1 else i - 1) ∧
    l.previous.repos = l.repos ∧ l.previous.selected = l.selected := by
  simp [RepositoryList.previous, h, ListState.select]

/-- On a valid cursor, `next` is increment modulo the length. -/
theorem next_selected_mod (l : RepositoryList) (i : Nat)
    (hsel : l.state.selected = some i) (hlt : i < l.repos.length) :
    l.next.state.selected = some ((i + 1) % l.repos.length) ∧
    l.next.repos = l.repos := by
  obtain ⟨h1, h2, _⟩ := next_state_selected l i hsel
  refine ⟨?_, h2⟩
  rw [h1]
  congr 1
  by_cases hc : i ≥ l.repos.length - 1
  · have he : i + 1 = l.repos.length := by omega
    simp [hc, he, Nat.mod_self]
  · have hlt1 : i + 1 < l.repos.length := by omega
    simp [hc, Nat.mod_eq_of_lt hlt1]

/-- On a valid cursor, `previous` is decrement modulo the length. -/
theorem previous_selected_mod (l : RepositoryList) (i : Nat)
    (hsel : l.state.selected = some i) (hlt : i < l.repos.length) :
    l.previous.state.selected = some ((i + (l.repos.length - 1)) % l.repos.length) ∧
    l.previous.repos = l.repos := by
  obtain ⟨h1, h2, _⟩ := previous_state_selected l i hsel
  refine ⟨?_, h2⟩
  rw [h1]
  congr 1
  by_cases hc : i = 0
  · have hlt1 : l.repos.length - 1 < l.repos.length := by omega
    simp [hc, Nat.mod_eq_of_lt hlt1]
  · have he : i + (l.repos.length - 1) = (i - 1) + l.repos.length := by omega
    have hlt1 : i - 1 < l.repos.length := by omega
    simp [hc, he, Nat.add_mod_right, Nat.mod_eq_of_lt hlt1]

/-- `k` consecutive `select_next` calls. -/
def RepositoryList.nextN (l : RepositoryList) : Nat → RepositoryList
  | 0 => l
  | k + 1 => (l.nextN k).next

/-- Cursor value after `k` consecutive `next` calls from a valid cursor. -/
theorem nextN_selected (l : RepositoryList) (i : Nat)
    (hsel : l.state.selected = some i) (hlt : i < l.repos.length) :
    ∀ k, (l.nextN k).state.selected = some ((i + k) % l.repos.length) ∧
      (l.nextN k).repos = l.repos := by
  intro k
  induction k with
  | zero =>
    have hz : l.nextN 0 = l := rfl
    rw [hz, Nat.add_zero, Nat.mod_eq_of_lt hlt]
    exact ⟨hsel, rfl⟩
  | succ k ih =>
    obtain ⟨ih1, ih2⟩ := ih
    have hpos : 0 < l.repos.length := Nat.lt_of_le_of_lt (Nat.zero_le i) hlt
    have hm : (i + k) % l.repos.length < (l.nextN k).repos.length := by
      rw [ih2]; exact Nat.mod_lt _ hpos
    obtain ⟨h1, h2⟩ := next_selected_mod (l.nextN k) ((i + k) % l.repos.length) ih1 hm
    have hs : l.nextN (k + 1) = (l.nextN k).next := rfl
    constructor
    · rw [hs, h1, ih2, Nat.mod_add_mod, Nat.add_assoc]
    · rw [hs, h2, ih2]

/-- Scrollbar operations never change the length. -/
theorem applyOp_length (s : DependabotScrollbar) (op : ScrollOp) :
    (s.applyOp op).length = s.length := by
  cases op <;>
    simp [DependabotScrollbar.applyOp, DependabotScrollbar.scroll_down,
      DependabotScrollbar.scroll_up, DependabotScrollbar.top]

/-- Scrollbar operations keep the position within bounds. -/
theorem applyOp_position_le (s : DependabotScrollbar) (op : ScrollOp)
    (h : s.position ≤ s.length) : (s.applyOp op).position ≤ (s.applyOp op).length := by
  cases op with
  | down =>
    simp only [DependabotScrollbar.applyOp, DependabotScrollbar.scroll_down]
    split <;> omega
  | up =>
    simp only [DependabotScrollbar.applyOp, DependabotScrollbar.scroll_up]
    split <;> omega
  | top =>
    simp only [DependabotScrollbar.applyOp, DependabotScrollbar.top]
    omega

/-- Sequences of scrollbar operations preserve the bounds invariant and the
length. -/
theorem applyOps_invariant (ops : List ScrollOp) :
    ∀ s : DependabotScrollbar, s.position ≤ s.length →
      (s.applyOps ops).position ≤ (s.applyOps ops).length ∧
      (s.applyOps ops).length = s.length := by
  induction ops with
  | nil => intro s h; exact ⟨h, rfl⟩
  | cons op rest ih =>
    intro s h
    have h3 := ih (s.applyOp op) (applyOp_position_le s op h)
    have heq : s.applyOps (op :: rest) = (s.applyOp op).applyOps rest := rfl
    rw [heq]
    exact ⟨h3.1, h3.2.trans (applyOp_length s op)⟩

/-- Resize step of the detail render when the viewport height changed and
the previous scrollbar length exceeds it (`Ordering::Greater` branch). -/
theorem render_resize_branch_gt (app : App) (repo : Repository) (h : Nat)
    (hrepo : app.current_repository = some repo)
    (hresz : app.chunk_height ≠ h)
    (hgt : app.scrollbar.get_length > h) :
    (render_dependabot_details app h).scrollbar =
      app.scrollbar.resize (dependabot_line_count repo - h) ∧
    (render_dependabot_details app h).chunk_height = h := by
  have hc : compare app.scrollbar.get_length h = Ordering.gt :=
    Nat.compare_eq_gt.mpr hgt
  simp only [render_dependabot_details, hrepo, hc, if_pos hresz]
  refine ⟨?_, ?_⟩ <;> first | rfl | trivial

/-- Resize step of the detail render when the viewport height changed and
the previous scrollbar length is below it (`Ordering::Less` branch); the
two sub-cases of the source agree with truncated subtraction. -/
theorem render_resize_branch_lt (app : App) (repo : Repository) (h : Nat)
    (hrepo : app.current_repository = some repo)
    (hresz : app.chunk_height ≠ h)
    (hlt : app.scrollbar.get_length < h) :
    (render_dependabot_details app h).scrollbar =
      app.scrollbar.resize (dependabot_line_count repo - h) ∧
    (render_dependabot_details app h).chunk_height = h := by
  have hc : compare app.scrollbar.get_length h = Ordering.lt :=
    Nat.compare_eq_lt.mpr hlt
  simp only [render_dependabot_details, hrepo, hc, if_pos hresz]
  refine ⟨?_, trivial⟩
  split
  · next hsmall =>
    have hz : dependabot_line_count repo - h = 0 := by omega
    rw [hz]
  · rfl

/-- Resize step of the detail render when the viewport height changed and
the previous scrollbar length equals it (`Ordering::Equal` branch): the
source resets the scrollbar to length 0 regardless of the line count. -/
theorem render_resize_branch_eq (app : App) (repo : Repository) (h : Nat)
    (hrepo : app.current_repository = some repo)
    (hresz : app.chunk_height ≠ h)
    (heq : app.scrollbar.get_length = h) :
    (render_dependabot_details app h).scrollbar = app.scrollbar.resize 0 ∧
    (render_dependabot_details app h).chunk_height = h := by
  have hc : compare app.scrollbar.get_length h = Ordering.eq :=
    Nat.compare_eq_eq.mpr heq
  simp only [render_dependabot_details, hrepo, hc, if_pos hresz]
  refine ⟨?_, ?_⟩ <;> first | rfl | trivial

/-- `next` preserves the cursor invariant on a non-empty list. -/
theorem next_preserves_inv (l : RepositoryList) (hne : l.repos ≠ [])
    (hinv : l.cursorInv) : l.next.cursorInv := by
  obtain ⟨hiff, hbound⟩ := hinv
  have hlen : 0 < l.repos.length := List.length_pos.mpr hne
  cases hsel : l.state.selected with
  | none => exact absurd (hiff.mp hsel) hne
  | some i =>
    have hi := hbound i hsel
    obtain ⟨h1, h2, _⟩ := next_state_selected l i hsel
    constructor
    · rw [h1, h2]
      constructor
      · intro hx; simp at hx
      · intro hx; exact absurd hx hne
    · intro j hj
      rw [h1] at hj
      rw [h2]
      injection hj with hj
      subst hj
      split <;> omega

/-- `previous` preserves the cursor invariant on a non-empty list. -/
theorem previous_preserves_inv (l : RepositoryList) (hne : l.repos ≠ [])
    (hinv : l.cursorInv) : l.previous.cursorInv := by
  obtain ⟨hiff, hbound⟩ := hinv
  have hlen : 0 < l.repos.length := List.length_pos.mpr hne
  cases hsel : l.state.selected with
  | none => exact absurd (hiff.mp hsel) hne
  | some i =>
    have hi := hbound i hsel
    obtain ⟨h1, h2, _⟩ := previous_state_selected l i hsel
    constructor
    · rw [h1, h2]
      constructor
      · intro hx; simp at hx
      · intro hx; exact absurd hx hne
    · intro j hj
      rw [h1] at hj
      rw [h2]
      injection hj with hj
      subst hj
      split <;> omega

/-- `with_respositories` establishes the cursor invariant. -/
theorem with_respositories_inv (repos : List Repository) :
    (RepositoryList.with_respositories repos).cursorInv := by
  constructor
  · cases repos with
    | nil => simp [RepositoryList.with_respositories, ListState.select]
    | cons r rs => simp [RepositoryList.with_respositories, ListState.select]
  · intro i hi
    cases repos with
    | nil => simp [RepositoryList.with_respositories, ListState.select] at hi
    | cons r rs =>
      simp [RepositoryList.with_respositories, ListState.select] at hi
      subst hi
      simp [RepositoryList.with_respositories]

/-- The length of a `filterMap` is the number of inputs on which the
function succeeds. -/
theorem length_filterMap_eq_count {α β : Type} (f : α → Option β) (l : List α) :
    (l.filterMap f).length = (l.filter fun a => (f a).isSome).length := by
  induction l with
  | nil => rfl
  | cons a t ih =>
    rw [List.filterMap_cons, List.filter_cons]
    cases hf : f a with
    | none => simp [hf, ih]
    | some b => simp [hf, ih]

/-- The length of a `filterMap Except.toOption` over mapped results is the
number of inputs whose result is a success. -/
theorem length_filterMap_toOption {α β : Type} (g : α → Except String β) (l : List α) :
    ((l.map g).filterMap Except.toOption).length =
      (l.filter fun a => (g a).toOption.isSome).length := by
  rw [List.filterMap_map]
  rw [length_filterMap_eq_count]
  simp [Function.comp]

/-- The four per-severity open-alert counts partition the open alerts. -/
theorem open_count_partition (l : List Dependabot) :
    (l.filter fun d =>
      d.state == DependabotState.Open && d.severity == DependabotSeverity.Low).length +
    (l.filter fun d =>
      d.state == DependabotState.Open && d.severity == DependabotSeverity.Medium).length +
    (l.filter fun d =>
      d.state == DependabotState.Open && d.severity == DependabotSeverity.High).length +
    (l.filter fun d =>
      d.state == DependabotState.Open && d.severity == DependabotSeverity.Critical).length =
    (l.filter fun d => d.state == DependabotState.Open).length := by
  induction l with
  | nil => rfl
  | cons d t ih =>
    simp only [List.filter_cons]
    by_cases hst : d.state = DependabotState.Open
    · cases hsev : d.severity <;> simp [hst, hsev, List.length_cons] <;> omega
    · have hb : (d.state == DependabotState.Open) = false := by
        simp [hst]
      simp [hb, ih]

/-- A repository produced by the success path of the fetch pipeline on the
given alert list (used to instantiate pipeline hypotheses). -/
def repoFromPipeline (gr : GitHubRepository) (alerts : List GithubDependabot) : Repository :=
  match fetch_repo_depenabot_alerts gr (AlertsResponse.success alerts) with
  | .ok r => r
  | .error _ => mkRepo 0 "" [] 0 0 0 0

/-- A session state holding a refresh handle, as right after confirming an
update on the Update screen. -/
def appFetching : App :=
  { baseApp [] with current_screen := .Updating, fetching := true }

/-- Session on the repository-list screen over a single 40-alert repository. -/
def appC5 : App :=
  { baseApp [repo40] with current_screen := .ProjectList }

/-- Detail-screen session whose scrollbar length (10) equals the viewport
height about to be observed. -/
def appC6 : App :=
  { baseApp [] with
    current_repository := some repo40,
    scrollbar := DependabotScrollbar.new 10,
    chunk_height := 0 }

/-- Detail-screen session whose scrollbar length (50) differs from the
viewport height about to be observed. -/
def appC6w : App :=
  { baseApp [] with
    current_repository := some repo40,
    scrollbar := DependabotScrollbar.new 50,
    chunk_height := 3 }

/-- A scrollbar of length 2 at the top. -/
def sc7 : DependabotScrollbar := DependabotScrollbar.new 2

/-- A three-repository selection list with the cursor on index 1. -/
def l8 : RepositoryList :=
  { state := { selected := some 1 },
    repos := [mkRepo 1 "a" [] 0 0 0 0, mkRepo 2 "b" [] 0 0 0 0,
      mkRepo 3 "c" [] 2 1 1 1],
    selected := none }

/-- A sample repository for list-invariant witnesses. -/
def repoW : Repository := mkRepo 9 "w" [] 0 0 0 0

/-- A sample wire-format repository. -/
def ghRepo0 : GitHubRepository :=
  { id := 1, name := "alpha", full_name := "user/alpha", is_private := false,
    html_url := "https://example.test/alpha", archived := false }

/-- A refresh payload delivered by a successful worker. -/
def rlPayload : RepositoryList :=
  RepositoryList.with_respositories [mkRepo 3 "gamma" [] 0 0 0 0]

/-- A sample open low-severity wire-format alert. -/
def ghAlertOpenLow : GithubDependabot :=
  { number := 1, state := .Open,
    security_vulnerability :=
      { severity := .Low, package := { ecosystem := "cargo", name := "dep1" } },
    html_url := "https://example.test/a1", created_at := "2024-01-01",
    updated_at := "2024-01-02", dismissed_at := none }

/-- A sample dismissed high-severity wire-format alert. -/
def ghAlertDismissedHigh : GithubDependabot :=
  { number := 2, state := .Dismissed,
    security_vulnerability :=
      { severity := .High, package := { ecosystem := "npm", name := "dep2" } },
    html_url := "https://example.test/a2", created_at := "2024-01-01",
    updated_at := "2024-01-03", dismissed_at := some "2024-01-03" }

/-- A sample wire-format repository for the pipeline witness. -/
def grSample : GitHubRepository :=
  { id := 2, name := "beta", full_name := "user/beta", is_private := true,
    html_url := "https://example.test/beta", archived := false }

/-- The repository the pipeline builds from `grSample` and the two sample
alerts. -/
def repoSample : Repository :=
  repoFromPipeline grSample [ghAlertOpenLow, ghAlertDismissedHigh]

/-- The success path of the fetch pipeline derives `total_active_alerts`
from the open alerts only. -/
theorem fetch_success_total (gr : GitHubRepository) (alerts : List GithubDependabot)
    (repo : Repository)
    (hok : fetch_repo_depenabot_alerts gr (AlertsResponse.success alerts) = Except.ok repo) :
    repo.total_active_alerts =
      (repo.dependabots.filter fun d => d.state == DependabotState.Open).length := by
  simp only [fetch_repo_depenabot_alerts] at hok
  injection hok with h
  subst h
  exact open_count_partition _

/-! ### Claims -/

/-- C1 (corrected): when the in-flight refresh completes with a failure, the
session does not record the error, clear the handle and return to Overview;
instead `app.repositories = result?` propagates the error out of `run_app`,
terminating the session with that error after a single channel check. -/
theorem refresh_failure_terminates_session (a : App) (e : String)
    (obs : List ChannelObs) (h : a.fetching = true) :
    drainLoop a (ChannelObs.ready (Except.error e) :: obs) = (DrainOutcome.fatal e, 1) := by
  simp [drainLoop, h]

/-- C1 counterexample: a refresh that completes with a failure ends the
session (the claim says the session continues at Overview with the error
recorded). -/
theorem refresh_failure_not_recovered_cex :
    appFetching.fetching = true ∧
    ((drainLoop appFetching [ChannelObs.ready (Except.error "transport failure")]).1).isFatal
      = true :=
  ⟨rfl, rfl⟩

/-- C1 witness. -/
theorem refresh_failure_terminates_session_witness :
    drainLoop appFetching [ChannelObs.ready (Except.error "boom")] =
      (DrainOutcome.fatal "boom", 1) :=
  refresh_failure_terminates_session appFetching "boom" [] rfl

/-- C2 (corrected): construction establishes the cursor invariant and `next`
and `previous` preserve it on non-empty lists, but on an empty list both
set the cursor to `some 0` instead of leaving it `none`. -/
theorem selection_cursor_invariant :
    (∀ repos, (RepositoryList.with_respositories repos).cursorInv) ∧
    (∀ l : RepositoryList, l.repos ≠ [] → l.cursorInv →
      l.next.cursorInv ∧ l.previous.cursorInv) ∧
    (∀ l : RepositoryList, l.repos = [] → l.state.selected = none → l.selected = none →
      l.next.state.selected = some 0 ∧ l.previous.state.selected = some 0) := by
  refine ⟨with_respositories_inv, ?_, ?_⟩
  · intro l hne hinv
    exact ⟨next_preserves_inv l hne hinv, previous_preserves_inv l hne hinv⟩
  · intro l _ hsel hseld
    constructor
    · simp [RepositoryList.next, hsel, hseld, ListState.select]
    · simp [RepositoryList.previous, hsel, hseld, ListState.select]

/-- C2 counterexample: `next` (and `previous`) on the empty list set the
cursor to `some 0`, violating the none-iff-empty invariant (the claim says
both are no-ops leaving the cursor `None`). -/
theorem empty_list_next_selects_zero_cex :
    (RepositoryList.with_respositories []).repos = [] ∧
    (RepositoryList.with_respositories []).next.state.selected = some 0 ∧
    (RepositoryList.with_respositories []).previous.state.selected = some 0 :=
  ⟨rfl, rfl, rfl⟩

/-- C2 witness. -/
theorem selection_cursor_invariant_witness :
    (RepositoryList.with_respositories [repoW]).next.cursorInv ∧
    (RepositoryList.with_respositories []).next.state.selected = some 0 := by
  constructor
  · exact (selection_cursor_invariant.2.1 (RepositoryList.with_respositories [repoW])
      (by decide) (selection_cursor_invariant.1 [repoW])).1
  · exact (selection_cursor_invariant.2.2 (RepositoryList.with_respositories [])
      rfl rfl rfl).1

/-- C3 (corrected): a transport failure of the repository-list fetch fails
the whole refresh, but a per-repository alert-fetch failure does not: the
per-repository pass always returns `Ok`, keeping exactly the repositories
whose fetch succeeded and silently dropping the rest. -/
theorem refresh_error_propagation :
    (∀ (e : String) (responses : GitHubRepository → AlertsResponse),
      fetch_github_repos (RepoListResponse.transportError e) responses = Except.error e) ∧
    (∀ (repos : List GitHubRepository) (responses : GitHubRepository → AlertsResponse),
      ∃ updated : List Repository,
        fetch_dependabot_alerts repos responses = Except.ok updated ∧
        updated.length = (repos.filter fun repo =>
          (fetch_repo_depenabot_alerts repo (responses repo)).toOption.isSome).length) := by
  constructor
  · intro e responses
    rfl
  · intro repos responses
    refine ⟨_, rfl, ?_⟩
    exact length_filterMap_toOption
      (fun repo => fetch_repo_depenabot_alerts repo (responses repo)) repos

/-- C3 counterexample: with one repository whose alert fetch has a transport
failure, the refresh succeeds with that repository silently omitted (the
claim says the whole refresh fails). -/
theorem per_repo_failure_omitted_cex :
    fetch_github_repos (RepoListResponse.success [ghRepo0])
        (fun _ => AlertsResponse.transportError "connection refused") =
      Except.ok (RepositoryList.with_respositories []) ∧
    (RepositoryList.with_respositories []).repos.length = 0 :=
  ⟨rfl, rfl⟩

/-- C4 (corrected): with no refresh in flight the loop performs no channel
check; while a refresh handle is held, the UI thread stays in an inner poll
loop — one non-blocking check per pass, spinner tick and 200ms sleep between
passes, no input read — until the result arrives, so `k` empty polls before
a success amount to `k + 1` checks within one input-loop iteration. -/
theorem ui_poll_loop_behaviour :
    (∀ (a : App) (obs : List ChannelObs), a.fetching = false →
      drainLoop a obs = (DrainOutcome.finished a, 0)) ∧
    (∀ (k : Nat) (a : App) (result : RepositoryList), a.fetching = true →
      drainLoop a (List.replicate k ChannelObs.empty ++
          [ChannelObs.ready (Except.ok result)]) =
        (DrainOutcome.finished { a with
            repositories := result,
            fetching := false,
            current_screen := CurrentScreen.Overview,
            spinner_state := a.spinner_state + k }, k + 1)) := by
  constructor
  · intro a obs h
    cases obs <;> simp [drainLoop, h]
  · intro k
    induction k with
    | zero =>
      intro a result h
      simp [drainLoop, h]
    | succ k ih =>
      intro a result h
      rw [List.replicate_succ, List.cons_append]
      have hstep : drainLoop a (ChannelObs.empty ::
          (List.replicate k ChannelObs.empty ++ [ChannelObs.ready (Except.ok result)])) =
          ((drainLoop a.on_tick (List.replicate k ChannelObs.empty ++
            [ChannelObs.ready (Except.ok result)])).1,
           (drainLoop a.on_tick (List.replicate k ChannelObs.empty ++
            [ChannelObs.ready (Except.ok result)])).2 + 1) := by
        simp [drainLoop, h]
      rw [hstep, ih a.on_tick result h]
      simp only [App.on_tick]
      have harith : a.spinner_state + 1 + k = a.spinner_state + (k + 1) := by omega
      rw [harith]

/-- C4 counterexample: two empty polls followed by a ready result make three
channel checks within a single input-loop iteration (the claim says exactly
one check per iteration, with an input event read between checks). -/
theorem multiple_channel_checks_cex :
    appFetching.fetching = true ∧
    (drainLoop appFetching [ChannelObs.empty, ChannelObs.empty,
      ChannelObs.ready (Except.ok rlPayload)]).2 = 3 ∧
    (3 : Nat) ≠ 1 :=
  ⟨rfl, rfl, by decide⟩

/-- C4 witness. -/
theorem ui_poll_loop_behaviour_witness :
    drainLoop (baseApp []) [ChannelObs.empty] =
      (DrainOutcome.finished (baseApp []), 0) ∧
    drainLoop appFetching (List.replicate 2 ChannelObs.empty ++
        [ChannelObs.ready (Except.ok rlPayload)]) =
      (DrainOutcome.finished { appFetching with
          repositories := rlPayload,
          fetching := false,
          current_screen := CurrentScreen.Overview,
          spinner_state := appFetching.spinner_state + 2 }, 3) :=
  ⟨ui_poll_loop_behaviour.1 (baseApp []) [ChannelObs.empty] rfl,
   ui_poll_loop_behaviour.2 2 appFetching rlPayload rfl⟩

/-- C5 (confirmed): "select" on the repository list with a selected
repository copies it into the session, moves to the detail screen and
resets the scrollbar to (total open alerts × 10); for a repository with 40
open alerts and no others, a render at viewport height 10 then leaves the
scrollbar length at (40 × 10) − 10. -/
theorem select_repository_enters_detail (app : App) (repo : Repository)
    (hs : app.current_screen = CurrentScreen.ProjectList)
    (hsel : app.repositories.get_selected_repository = some repo) :
    handleKey app KeyCode.enter =
      StepResult.cont { app with
        current_repository := some repo,
        current_screen := CurrentScreen.Project,
        scrollbar := DependabotScrollbar.new (repo.total_active_alerts * 10) } ∧
    (repo.total_active_alerts = 40 → repo.dependabots.length = 40 →
      app.chunk_height ≠ 10 →
      (render_dependabot_details { app with
          current_repository := some repo,
          current_screen := CurrentScreen.Project,
          scrollbar := DependabotScrollbar.new (repo.total_active_alerts * 10) } 10
        ).scrollbar.get_length = 40 * 10 - 10) := by
  constructor
  · simp [handleKey, dispatchKey, hs, hsel]
  · intro h40 hlen hch
    have hrepo2 : ({ app with
        current_repository := some repo,
        current_screen := CurrentScreen.Project,
        scrollbar := DependabotScrollbar.new (repo.total_active_alerts * 10) }
          : App).current_repository = some repo := rfl
    have hgt : ({ app with
        current_repository := some repo,
        current_screen := CurrentScreen.Project,
        scrollbar := DependabotScrollbar.new (repo.total_active_alerts * 10) }
          : App).scrollbar.get_length > 10 := by
      show repo.total_active_alerts * 10 > 10
      rw [h40]
      omega
    obtain ⟨hsres, _⟩ := render_resize_branch_gt _ repo 10 hrepo2 hch hgt
    rw [hsres]
    show dependabot_line_count repo - 10 = 40 * 10 - 10
    rw [dependabot_line_count_eq, hlen]

/-- C5 witness. -/
theorem select_repository_enters_detail_witness :
    handleKey appC5 KeyCode.enter =
      StepResult.cont { appC5 with
        current_repository := some repo40,
        current_screen := CurrentScreen.Project,
        scrollbar := DependabotScrollbar.new (repo40.total_active_alerts * 10) } ∧
    (render_dependabot_details { appC5 with
        current_repository := some repo40,
        current_screen := CurrentScreen.Project,
        scrollbar := DependabotScrollbar.new (repo40.total_active_alerts * 10) } 10
      ).scrollbar.get_length = 40 * 10 - 10 := by
  have h := select_repository_enters_detail appC5 repo40 rfl rfl
  exact ⟨h.1, h.2 rfl rfl (by decide)⟩

/-- C6 (corrected): on an observed viewport-height change, when the previous
scrollbar length differs from the new viewport height the recomputation
yields length = content − viewport (floored at 0) and position 0 — but when
the previous length equals the viewport height the scrollbar is reset to
length 0 regardless of the content line count.  (The monotone hypothesis
keeps the `Greater` branch inside the region where the source's unchecked
subtraction cannot underflow.) -/
theorem resize_on_viewport_change (app : App) (repo : Repository) (h : Nat)
    (hrepo : app.current_repository = some repo)
    (hresz : app.chunk_height ≠ h)
    (_hmono : app.scrollbar.get_length ≤ dependabot_line_count repo) :
    (app.scrollbar.get_length ≠ h →
      (render_dependabot_details app h).scrollbar.get_length
        = dependabot_line_count repo - h ∧
      (render_dependabot_details app h).scrollbar.position = 0) ∧
    (app.scrollbar.get_length = h →
      (render_dependabot_details app h).scrollbar.get_length = 0 ∧
      (render_dependabot_details app h).scrollbar.position = 0) := by
  constructor
  · intro hne
    rcases Nat.lt_or_ge app.scrollbar.get_length h with hlt | hge
    · obtain ⟨hs, _⟩ := render_resize_branch_lt app repo h hrepo hresz hlt
      rw [hs]
      exact ⟨rfl, rfl⟩
    · have hgt : app.scrollbar.get_length > h := Nat.lt_of_le_of_ne hge (Ne.symm hne)
      obtain ⟨hs, _⟩ := render_resize_branch_gt app repo h hrepo hresz hgt
      rw [hs]
      exact ⟨rfl, rfl⟩
  · intro heq
    obtain ⟨hs, _⟩ := render_resize_branch_eq app repo h hrepo hresz heq
    rw [hs]
    exact ⟨rfl, rfl⟩

/-- C6 counterexample: previous scrollbar length 10 equals the observed
viewport height 10, content is 400 lines; the recomputation yields length 0,
not max(0, 400 − 10) = 390 (the claim says the formula holds for all
values). -/
theorem resize_equal_length_cex :
    appC6.chunk_height ≠ 10 ∧
    appC6.scrollbar.get_length = 10 ∧
    dependabot_line_count repo40 = 400 ∧
    (render_dependabot_details appC6 10).scrollbar.get_length = 0 ∧
    (0 : Nat) ≠ 400 - 10 :=
  ⟨by decide, rfl, rfl, rfl, by decide⟩

/-- C6 witness. -/
theorem resize_on_viewport_change_witness :
    (render_dependabot_details appC6w 10).scrollbar.get_length
      = dependabot_line_count repo40 - 10 ∧
    (render_dependabot_details appC6w 10).scrollbar.position = 0 :=
  (resize_on_viewport_change appC6w repo40 10 rfl (by decide) (by decide)).1 (by decide)

/-- C7 (confirmed): starting from a scrollbar whose position is within
bounds, any sequence of scroll operations keeps the position in [0, length]
and leaves the length unchanged; `scroll_down` from the end wraps to 0,
`scroll_up` from 0 wraps to the end, and with length 0 both are no-ops at
position 0. -/
theorem scrollbar_position_bounds (s : DependabotScrollbar)
    (hpos : s.position ≤ s.length) :
    (∀ ops : List ScrollOp,
      (s.applyOps ops).position ≤ (s.applyOps ops).length ∧
      (s.applyOps ops).length = s.length) ∧
    (s.position = s.length → s.scroll_down.position = 0) ∧
    (s.position = 0 → s.scroll_up.position = s.length) ∧
    (s.length = 0 → s.scroll_down.position = 0 ∧ s.scroll_up.position = 0) := by
  refine ⟨fun ops => applyOps_invariant ops s hpos, ?_, ?_, ?_⟩
  · intro h
    simp [DependabotScrollbar.scroll_down, h]
  · intro h
    simp [DependabotScrollbar.scroll_up, h]
  · intro h
    have hp : s.position = 0 := by omega
    constructor
    · simp [DependabotScrollbar.scroll_down, hp, h]
    · simp [DependabotScrollbar.scroll_up, hp, h]

/-- C7 witness. -/
theorem scrollbar_position_bounds_witness :
    ((sc7.applyOps [ScrollOp.down, ScrollOp.down, ScrollOp.down]).position ≤
      (sc7.applyOps [ScrollOp.down, ScrollOp.down, ScrollOp.down]).length) ∧
    (sc7.applyOps [ScrollOp.down, ScrollOp.down, ScrollOp.down]).length = sc7.length :=
  (scrollbar_position_bounds sc7 (by decide)).1 [ScrollOp.down, ScrollOp.down, ScrollOp.down]

/-- C8 (confirmed): on a non-empty list with a valid cursor, N consecutive
`next` calls (N the list length) return the cursor to its starting index,
and `previous` composed with `next` in either order is the identity on the
cursor. -/
theorem selection_list_circularity (l : RepositoryList) (i : Nat)
    (hsel : l.state.selected = some i) (hlt : i < l.repos.length) :
    (l.nextN l.repos.length).state.selected = some i ∧
    l.next.previous.state.selected = some i ∧
    l.previous.next.state.selected = some i := by
  have hpos : 0 < l.repos.length := Nat.lt_of_le_of_lt (Nat.zero_le i) hlt
  refine ⟨?_, ?_, ?_⟩
  · obtain ⟨h1, _⟩ := nextN_selected l i hsel hlt l.repos.length
    rw [h1, Nat.add_mod_right, Nat.mod_eq_of_lt hlt]
  · obtain ⟨hn1, hn2⟩ := next_selected_mod l i hsel hlt
    have hm : (i + 1) % l.repos.length < l.next.repos.length := by
      rw [hn2]; exact Nat.mod_lt _ hpos
    obtain ⟨hp1, _⟩ := previous_selected_mod l.next ((i + 1) % l.repos.length) hn1 hm
    rw [hp1, hn2]
    congr 1
    have he : i + 1 + (l.repos.length - 1) = i + l.repos.length := by omega
    rw [Nat.mod_add_mod, he, Nat.add_mod_right, Nat.mod_eq_of_lt hlt]
  · obtain ⟨hp1, hp2⟩ := previous_selected_mod l i hsel hlt
    have hm : (i + (l.repos.length - 1)) % l.repos.length < l.previous.repos.length := by
      rw [hp2]; exact Nat.mod_lt _ hpos
    obtain ⟨hn1, _⟩ := next_selected_mod l.previous
      ((i + (l.repos.length - 1)) % l.repos.length) hp1 hm
    rw [hn1, hp2]
    congr 1
    have he : i + (l.repos.length - 1) + 1 = i + l.repos.length := by omega
    rw [Nat.mod_add_mod, he, Nat.add_mod_right, Nat.mod_eq_of_lt hlt]

/-- C8 witness. -/
theorem selection_list_circularity_witness :
    (l8.nextN l8.repos.length).state.selected = some 1 ∧
    l8.next.previous.state.selected = some 1 ∧
    l8.previous.next.state.selected = some 1 :=
  selection_list_circularity l8 1 rfl (by decide)

/-- C9 (corrected): a channel disconnect without a result is treated as a
fatal error that terminates the session — but it is not the only refresh
outcome that does: a refresh completing with a failure also terminates the
session (only the success outcome is recovered). -/
theorem worker_disconnect_fatal (a : App) (obs : List ChannelObs)
    (h : a.fetching = true) :
    drainLoop a (ChannelObs.disconnected :: obs) =
      (DrainOutcome.fatal "Fetch thread terminated unexpectedly", 1) := by
  simp [drainLoop, h]

/-- C9 counterexample: a failure result — which is not a disconnect — also
ends the session, so the disconnect is not the only session-ending refresh
outcome as the claim states. -/
theorem nondisconnect_outcome_terminates_cex :
    appFetching.fetching = true ∧
    ((drainLoop appFetching [ChannelObs.ready (Except.error "network unreachable")]).1).isFatal
      = true :=
  ⟨rfl, rfl⟩

/-- C9 witness. -/
theorem worker_disconnect_fatal_witness :
    drainLoop appFetching [ChannelObs.disconnected] =
      (DrainOutcome.fatal "Fetch thread terminated unexpectedly", 1) :=
  worker_disconnect_fatal appFetching [] rfl

/-- C10 (confirmed): every alert renders to exactly 10 lines regardless of
its state or fields, so the detail-view content line count is 10 times the
number of all alerts, while the scrollbar length set on entering the detail
screen is 10 times the open-alert count only (for repositories built by the
fetch pipeline, whose `total_active_alerts` counts open alerts only). -/
theorem alert_text_and_scrollbar_counts :
    (∀ d : Dependabot, d.to_text.length = 10) ∧
    (∀ repo : Repository, dependabot_line_count repo = 10 * repo.dependabots.length) ∧
    (∀ (gr : GitHubRepository) (alerts : List GithubDependabot) (repo : Repository),
      fetch_repo_depenabot_alerts gr (AlertsResponse.success alerts) = Except.ok repo →
      repo.total_active_alerts =
        (repo.dependabots.filter fun d => d.state == DependabotState.Open).length ∧
      ∀ app : App, app.current_screen = CurrentScreen.ProjectList →
        app.repositories.get_selected_repository = some repo →
        handleKey app KeyCode.enter =
          StepResult.cont { app with
            current_repository := some repo,
            current_screen := CurrentScreen.Project,
            scrollbar := DependabotScrollbar.new
              ((repo.dependabots.filter fun d =>
                d.state == DependabotState.Open).length * 10) }) := by
  refine ⟨to_text_length, dependabot_line_count_eq, ?_⟩
  intro gr alerts repo hok
  have htot := fetch_success_total gr alerts repo hok
  refine ⟨htot, ?_⟩
  intro app hs hsel
  have hkey : handleKey app KeyCode.enter =
      StepResult.cont { app with
        current_repository := some repo,
        current_screen := CurrentScreen.Project,
        scrollbar := DependabotScrollbar.new (repo.total_active_alerts * 10) } := by
    simp [handleKey, dispatchKey, hs, hsel]
  rw [hkey, htot]

/-- C10 witness. -/
theorem alert_text_and_scrollbar_counts_witness :
    repoSample.total_active_alerts =
      (repoSample.dependabots.filter fun d => d.state == DependabotState.Open).length ∧
    (mkAlert 3 DependabotState.Fixed DependabotSeverity.Critical).to_text.length = 10 :=
  ⟨(alert_text_and_scrollbar_counts.2.2 grSample
      [ghAlertOpenLow, ghAlertDismissedHigh] repoSample rfl).1,
   alert_text_and_scrollbar_counts.1 (mkAlert 3 DependabotState.Fixed DependabotSeverity.Critical)⟩

end DependabotTracker
